import Mathlib

/-
Verification of the requirements-manifest demonstration script
`src/Mlflow_Labs/seving.py`.

The script trains a model and logs it six times under one tracking run,
each time with a different way of declaring pip requirements; after each
logging call it downloads the persisted requirements (and, in one case,
constraints) manifest and asserts its content.

The verifier side (`read_lines`, `get_pip_requirements`, the shape of
`main` with its assertions) is embedded from the source.  The
requirements-merging behaviour of the external logging facility (the
"Requirement Resolver" of the design document, section 4.1) is not
implemented in the repository; it is modelled here from the design
document and marked as such.
-/

namespace Seving

/-- Splitting of a character list at newline characters, with the
semantics of Python `str.splitlines` restricted to texts whose only
line terminator is the newline character: a trailing newline does not
produce a final empty line, but consecutive newlines do produce empty
lines. -/
def splitlinesAux : List Char → List (List Char)
  | [] => []
  | c :: cs =>
    if c = '\n' then [] :: splitlinesAux cs
    else
      match splitlinesAux cs with
      | [] => [[c]]
      | l :: ls => (c :: l) :: ls

/-- Python `text.splitlines()` on a string (newline terminators only),
as used by `read_lines` in the source. -/
def splitlines (s : String) : List String :=
  (splitlinesAux s.toList).map String.mk

/-- Serialise a sequence of lines into a text artifact, one line per
entry, each terminated by a newline. -/
def joinLines (ls : List String) : String :=
  String.mk (((ls.map String.toList).map (fun l => l ++ ['\n'])).flatten)

/-- A file system: maps a path to the content of the file there, when
the file exists. -/
def FS := String → Option String

/-- Errors the script can end with: a fatal I/O or download error
carrying the offending path, or an assertion failure carrying the
offending actual set as its diagnostic. -/
inductive Err where
  | io : String → Err
  | assertFail : Finset String → Err
deriving DecidableEq

/-- Embeds `read_lines` of the source: open the file at `path` and
split its content into lines with `str.splitlines`.  A missing or
unreadable file is a fatal I/O error. -/
def read_lines (fs : FS) (path : String) : Except Err (List String) :=
  match fs path with
  | some s => .ok (splitlines s)
  | none => .error (.io path)

/-- The artifact store of one tracking run: maps a run-scoped artifact
path to the text persisted there. -/
def Store := String → Option String

/-- Embeds the `download_artifacts` call as used by the source: fetch
the text artifact at the given run-scoped path; a missing artifact is a
fatal error. -/
def download_artifacts (st : Store) (artifact_path : String) : Except Err String :=
  match st artifact_path with
  | some s => .ok s
  | none => .error (.io artifact_path)

/-- Embeds `get_pip_requirements` of the source: download
`artifact_path/requirements.txt`, split it into lines, and return the
set of those lines; when `return_constraints` is true additionally
download `artifact_path/constraints.txt` and return its line set as
well. -/
def get_pip_requirements (st : Store) (artifact_path : String) (return_constraints : Bool) :
    Except Err (Finset String × Option (Finset String)) :=
  match download_artifacts st (artifact_path ++ "/requirements.txt") with
  | .error e => .error e
  | .ok reqTxt =>
    if return_constraints then
      match download_artifacts st (artifact_path ++ "/constraints.txt") with
      | .error e => .error e
      | .ok conTxt => .ok ((splitlines reqTxt).toFinset, some (splitlines conTxt).toFinset)
    else
      .ok ((splitlines reqTxt).toFinset, none)

/-- The explicit `pip_requirements` argument of a logging call: either a
path to a requirements file or a list of requirement strings. -/
inductive PipReqs where
  | path : String → PipReqs
  | list : List String → PipReqs

/-- Modelled from the spec: recognition of the inline directive forms
among requirement entries, namely `-r <path>` and `-c <path>`; the
result distinguishes the two forms (`true` for `-r`) and carries the
referenced path.  Any other entry is a plain requirement line. -/
def parseDirective (e : String) : Option (Bool × String) :=
  match e.toList with
  | '-' :: 'r' :: ' ' :: rest => some (true, String.mk rest)
  | '-' :: 'c' :: ' ' :: rest => some (false, String.mk rest)
  | _ => none

/-- Modelled from the spec: elaboration of a list of requirement
entries by the external logging facility (the Requirement Resolver,
which the repository does not implement).  Entries of form `-r <path>`
are expanded by reading that file's lines in place; entries of form
`-c <path>` route that file's lines into the constraints manifest and
leave the literal line `-c constraints.txt` in the requirements
manifest instead of the raw directive; other entries pass through.
The constraints manifest exists only when some `-c` directive was
supplied.  An unreadable referenced file is a fatal I/O error. -/
def resolveEntries (fs : FS) : List String → Except Err (List String × Option (List String))
  | [] => .ok ([], none)
  | e :: es =>
    match parseDirective e with
    | none =>
      match resolveEntries fs es with
      | .error er => .error er
      | .ok (r, c) => .ok (e :: r, c)
    | some (true, p) =>
      match read_lines fs p with
      | .error er => .error er
      | .ok ls =>
        match resolveEntries fs es with
        | .error er => .error er
        | .ok (r, c) => .ok (ls ++ r, c)
    | some (false, p) =>
      match read_lines fs p with
      | .error er => .error er
      | .ok ls =>
        match resolveEntries fs es with
        | .error er => .error er
        | .ok (r, c) => .ok ("-c constraints.txt" :: r, some (ls ++ c.getD []))

/-- Modelled from the spec: the Requirement Resolver of the external
logging facility.  An explicit requirement list overrides the inferred
defaults entirely; an explicit path is read as a requirements file; an
extra list (with no explicit value) yields defaults plus the extra
entries; with neither, the framework-inferred defaults stand.  The
resulting entries are then elaborated by `resolveEntries`. -/
def resolve (fs : FS) (defaults : List String) (pip : Option PipReqs)
    (extra : Option (List String)) : Except Err (List String × Option (List String)) :=
  match pip with
  | some (.path p) =>
    match read_lines fs p with
    | .error er => .error er
    | .ok ls => resolveEntries fs ls
  | some (.list l) => resolveEntries fs l
  | none =>
    match extra with
    | some e => resolveEntries fs (defaults ++ e)
    | none => resolveEntries fs defaults

/-- Modelled from the spec: persistence of the two manifests of a
logging call under the artifact path, `requirements.txt` always,
`constraints.txt` only when the resolver produced constraints. -/
def persist (ap : String) (r : List String) (c : Option (List String)) (st : Store) : Store :=
  fun p =>
    if p = ap ++ "/requirements.txt" then some (joinLines r)
    else if p = ap ++ "/constraints.txt" then
      match c with
      | some cl => some (joinLines cl)
      | none => st p
    else st p

/-- The store of a fresh run, before any logging call. -/
def emptyStore : Store := fun _ => none

/-- A Python `assert cond, diag` statement over a set diagnostic: on
failure it raises immediately, attaching the diagnostic. -/
def assertCheck (cond : Prop) [Decidable cond] (diag : Finset String) : Except Err Unit :=
  if cond then .ok () else .error (.assertFail diag)

/-- The six artifact paths used by `main`, in scenario order. -/
def artifactPaths : List String :=
  ["default", "pip_requirements", "extra_pip_requirements",
   "requirements_file_path", "requirements_file_list", "constraints_file"]

/-- Embeds `main` of the source: under one run, log the model six
times (default, explicit list, extra list, requirements-file path,
list with a `-r` directive, list with a `-c` directive) and after each
logging call download the persisted manifest and assert its content.
The logging calls go through the spec-modelled resolver; `tmp1` and
`tmp2` are the names of the two temporary files the script writes
`sklearn_req` into. -/
def main (fs : FS) (defaults : List String) (xgb_req sklearn_req tmp1 tmp2 : String) :
    Except Err Unit := do
  let (r1, c1) ← resolve fs defaults none none
  let st1 := persist "default" r1 c1 emptyStore
  let (pip_reqs1, _) ← get_pip_requirements st1 "default" false
  assertCheck (xgb_req ∈ pip_reqs1) pip_reqs1
  let (r2, c2) ← resolve fs defaults (some (.list [sklearn_req])) none
  let st2 := persist "pip_requirements" r2 c2 st1
  let (pip_reqs2, _) ← get_pip_requirements st2 "pip_requirements" false
  assertCheck (sklearn_req ∈ pip_reqs2) pip_reqs2
  let (r3, c3) ← resolve fs defaults none (some [sklearn_req])
  let st3 := persist "extra_pip_requirements" r3 c3 st2
  let (pip_reqs3, _) ← get_pip_requirements st3 "extra_pip_requirements" false
  assertCheck (({xgb_req, sklearn_req} : Finset String) ⊆ pip_reqs3) pip_reqs3
  let (r4, c4) ← resolve fs defaults (some (.path tmp1)) none
  let st4 := persist "requirements_file_path" r4 c4 st3
  let (pip_reqs4, _) ← get_pip_requirements st4 "requirements_file_path" false
  assertCheck (sklearn_req ∈ pip_reqs4) pip_reqs4
  let (r5, c5) ← resolve fs defaults (some (.list [xgb_req, "-r " ++ tmp1])) none
  let st5 := persist "requirements_file_list" r5 c5 st4
  let (pip_reqs5, _) ← get_pip_requirements st5 "requirements_file_list" false
  assertCheck (({xgb_req, sklearn_req} : Finset String) ⊆ pip_reqs5) pip_reqs5
  let (r6, c6) ← resolve fs defaults (some (.list [xgb_req, "-c " ++ tmp2])) none
  let st6 := persist "constraints_file" r6 c6 st5
  let res ← get_pip_requirements st6 "constraints_file" true
  match res.2 with
  | some pip_cons => do
    assertCheck (({xgb_req, "-c constraints.txt"} : Finset String) ⊆ res.1) res.1
    assertCheck (pip_cons = ({sklearn_req} : Finset String)) pip_cons
  | none => .error (.io "constraints.txt")

/-- Splitting after appending one newline-free line and a newline
terminator peels off exactly that line. -/
theorem splitlinesAux_append (l rest : List Char) (h : '\n' ∉ l) :
    splitlinesAux (l ++ '\n' :: rest) = l :: splitlinesAux rest := by
  induction l with
  | nil => simp [splitlinesAux]
  | cons c cs ih =>
    have hc : c ≠ '\n' := by
      intro hcontra
      exact h (hcontra ▸ List.mem_cons_self c cs)
    have hcs : '\n' ∉ cs := fun hmem => h (List.mem_cons_of_mem c hmem)
    simp [splitlinesAux, hc, ih hcs]

/-- Unfolding of `splitlinesAux` at a character that is not a
newline. -/
theorem splitlinesAux_cons_ne (c : Char) (cs : List Char) (hc : c ≠ '\n') :
    splitlinesAux (c :: cs)
      = match splitlinesAux cs with
        | [] => [[c]]
        | l :: ls => (c :: l) :: ls := by
  simp [splitlinesAux, hc]

/-- A nonempty newline-free character list splits into the single line
it is. -/
theorem splitlinesAux_single (l : List Char) (h0 : l ≠ []) (h : '\n' ∉ l) :
    splitlinesAux l = [l] := by
  induction l with
  | nil => exact absurd rfl h0
  | cons c cs ih =>
    have hc : c ≠ '\n' := by
      intro hcontra
      exact h (hcontra ▸ List.mem_cons_self c cs)
    have hcs : '\n' ∉ cs := fun hmem => h (List.mem_cons_of_mem c hmem)
    cases cs with
    | nil => simp [splitlinesAux, hc]
    | cons d ds =>
      rw [splitlinesAux_cons_ne c _ hc, ih (by simp) hcs]

theorem toList_mk (l : List Char) : (String.mk l).toList = l := rfl

theorem mk_toList (s : String) : String.mk s.toList = s := rfl

/-- Serialising newline-free lines and splitting the result recovers
exactly the lines. -/
theorem splitlines_joinLines (ls : List String) (h : ∀ l ∈ ls, '\n' ∉ l.toList) :
    splitlines (joinLines ls) = ls := by
  induction ls with
  | nil => rfl
  | cons s rest ih =>
    have hs : '\n' ∉ s.toList := h s (List.mem_cons_self s rest)
    have hrest : ∀ l ∈ rest, '\n' ∉ l.toList := fun l hl => h l (List.mem_cons_of_mem s hl)
    have key : (joinLines (s :: rest)).toList
        = s.toList ++ '\n' :: (joinLines rest).toList := by
      simp [joinLines, toList_mk]
    calc splitlines (joinLines (s :: rest))
        = (splitlinesAux (s.toList ++ '\n' :: (joinLines rest).toList)).map String.mk := by
          unfold splitlines
          rw [key]
      _ = (s.toList :: splitlinesAux (joinLines rest).toList).map String.mk := by
          rw [splitlinesAux_append _ _ hs]
      _ = s :: splitlines (joinLines rest) := by
          simp only [List.map_cons, mk_toList, splitlines]
      _ = s :: rest := by rw [ih hrest]

/-- A nonempty newline-free string splits into the single line it is. -/
theorem splitlines_single (s : String) (h0 : s ≠ "") (h : '\n' ∉ s.toList) :
    splitlines s = [s] := by
  have h0l : s.toList ≠ [] := by
    intro hnil
    exact h0 (by rw [← mk_toList s, hnil])
  unfold splitlines
  rw [splitlinesAux_single s.toList h0l h]
  simp [mk_toList]

theorem data_append (a b : String) : (a ++ b).toList = a.toList ++ b.toList := rfl

/-- Appending a fixed prefix to distinct strings keeps them distinct. -/
theorem append_ne_append (a : String) {s t : String} (h : s ≠ t) :
    a ++ s ≠ a ++ t := by
  intro hcontra
  apply h
  have hl : a.toList ++ s.toList = a.toList ++ t.toList := by
    rw [← data_append, ← data_append, hcontra]
  have : s.toList = t.toList := List.append_cancel_left hl
  rw [← mk_toList s, ← mk_toList t, this]

/-- Reading the requirements manifest just persisted under an artifact
path returns exactly its serialised lines, whatever the rest of the
store holds. -/
theorem get_persist_false (ap : String) (r : List String) (c : Option (List String))
    (st : Store) :
    get_pip_requirements (persist ap r c st) ap false
      = .ok ((splitlines (joinLines r)).toFinset, none) := by
  simp [get_pip_requirements, download_artifacts, persist]

/-- Reading both manifests just persisted (with constraints produced)
returns exactly their serialised lines. -/
theorem get_persist_true (ap : String) (r cl : List String) (st : Store) :
    get_pip_requirements (persist ap r (some cl) st) ap true
      = .ok ((splitlines (joinLines r)).toFinset, some (splitlines (joinLines cl)).toFinset) := by
  have hne : ap ++ "/constraints.txt" ≠ ap ++ "/requirements.txt" :=
    append_ne_append ap (by decide)
  simp [get_pip_requirements, download_artifacts, persist, hne]

/-- Resolving a list of plain requirement entries (no directives)
leaves the list unchanged and produces no constraints manifest. -/
theorem resolveEntries_plain (fs : FS) (l : List String)
    (h : ∀ e ∈ l, parseDirective e = none) :
    resolveEntries fs l = .ok (l, none) := by
  induction l with
  | nil => rfl
  | cons e es ih =>
    have he : parseDirective e = none := h e (List.mem_cons_self e es)
    have hes : ∀ x ∈ es, parseDirective x = none := fun x hx => h x (List.mem_cons_of_mem e hx)
    simp [resolveEntries, he, ih hes]

/-- An entry built as `-r <path>` is recognised as a requirements-file
directive for exactly that path. -/
theorem parseDirective_r (p : String) : parseDirective ("-r " ++ p) = some (true, p) := by
  have h1 : ("-r " ++ p).toList = '-' :: 'r' :: ' ' :: p.toList := by
    rw [data_append]
    have h2 : "-r ".toList = ['-', 'r', ' '] := by decide
    rw [h2]
    rfl
  unfold parseDirective
  rw [h1]
  rfl

/-- An entry built as `-c <path>` is recognised as a constraints-file
directive for exactly that path. -/
theorem parseDirective_c (p : String) : parseDirective ("-c " ++ p) = some (false, p) := by
  have h1 : ("-c " ++ p).toList = '-' :: 'c' :: ' ' :: p.toList := by
    rw [data_append]
    have h2 : "-c ".toList = ['-', 'c', ' '] := by decide
    rw [h2]
    rfl
  unfold parseDirective
  rw [h1]
  rfl

/-- Scenario "default": with neither override the resolver keeps the
inferred defaults and produces no constraints manifest. -/
theorem resolve_default (fs : FS) (defaults : List String)
    (h : ∀ e ∈ defaults, parseDirective e = none) :
    resolve fs defaults none none = .ok (defaults, none) := by
  simp [resolve, resolveEntries_plain fs defaults h]

/-- Scenario "pip_requirements": an explicit list of plain entries
stands as given, discarding the defaults. -/
theorem resolve_list_plain (fs : FS) (defaults : List String) (l : List String)
    (h : ∀ e ∈ l, parseDirective e = none) :
    resolve fs defaults (some (.list l)) none = .ok (l, none) := by
  simp [resolve, resolveEntries_plain fs l h]

/-- Scenario "extra_pip_requirements": the extra entries are appended
to the defaults. -/
theorem resolve_extra (fs : FS) (defaults extra : List String)
    (h : ∀ e ∈ defaults ++ extra, parseDirective e = none) :
    resolve fs defaults none (some extra) = .ok (defaults ++ extra, none) := by
  simp [resolve, resolveEntries_plain fs (defaults ++ extra) h]

/-- Scenario "requirements_file_path": an explicit path is read as a
requirements file; a file holding one plain requirement line yields
exactly that line. -/
theorem resolve_path (fs : FS) (defaults : List String) (tmp req : String)
    (hfs : fs tmp = some req) (hplain : parseDirective req = none)
    (hne : req ≠ "") (hclean : '\n' ∉ req.toList) :
    resolve fs defaults (some (.path tmp)) none = .ok ([req], none) := by
  simp [resolve, read_lines, hfs, splitlines_single req hne hclean,
    resolveEntries_plain fs [req] (by simp [hplain])]

/-- Scenario "requirements_file_list": a `-r <path>` entry is expanded
in place into the referenced file's lines. -/
theorem resolve_rlist (fs : FS) (defaults : List String) (tmp xgb_req req : String)
    (hfs : fs tmp = some req)
    (hx : parseDirective xgb_req = none)
    (hne : req ≠ "") (hclean : '\n' ∉ req.toList) :
    resolve fs defaults (some (.list [xgb_req, "-r " ++ tmp])) none
      = .ok ([xgb_req, req], none) := by
  simp [resolve, resolveEntries, hx, parseDirective_r, read_lines, hfs,
    splitlines_single req hne hclean]

/-- Scenario "constraints_file": a `-c <path>` entry routes the
referenced file's lines into the constraints manifest and leaves the
literal `-c constraints.txt` line in the requirements. -/
theorem resolve_clist (fs : FS) (defaults : List String) (tmp xgb_req req : String)
    (hfs : fs tmp = some req)
    (hx : parseDirective xgb_req = none)
    (hne : req ≠ "") (hclean : '\n' ∉ req.toList) :
    resolve fs defaults (some (.list [xgb_req, "-c " ++ tmp])) none
      = .ok ([xgb_req, "-c constraints.txt"], some [req]) := by
  simp [resolve, resolveEntries, hx, parseDirective_c, read_lines, hfs,
    splitlines_single req hne hclean]

/-- A sample file system holding one requirement file, for concrete
instantiations. -/
def sampleFS (tmp content : String) : FS :=
  fun p => if p = tmp then some content else none

/-- C1: in the explicit-override scenario (`log_model` with
`pip_requirements` the list holding only `sklearn_req`), the resolver
keeps exactly the override list, and the persisted requirements
manifest, parsed as a set of lines, equals exactly the override set;
in particular the xgboost framework pin is not in it. -/
theorem c1_explicit_override_exact (fs : FS) (defaults : List String) (st : Store)
    (xgb_req sklearn_req : String)
    (h1 : parseDirective sklearn_req = none)
    (h3 : '\n' ∉ sklearn_req.toList)
    (h4 : xgb_req ≠ sklearn_req) :
    resolve fs defaults (some (.list [sklearn_req])) none = .ok ([sklearn_req], none) ∧
    get_pip_requirements (persist "pip_requirements" [sklearn_req] none st)
        "pip_requirements" false = .ok ({sklearn_req}, none) ∧
    xgb_req ∉ ({sklearn_req} : Finset String) := by
  refine ⟨resolve_list_plain fs defaults [sklearn_req] (by simp [h1]), ?_, by simp [h4]⟩
  rw [get_persist_false, splitlines_joinLines [sklearn_req] (by simpa using h3)]
  simp

/-- C1 witness at concrete requirement strings. -/
theorem c1_witness :
    (parseDirective "scikit-learn==1.3.0" = none ∧
      '\n' ∉ "scikit-learn==1.3.0".toList ∧
      "xgboost==1.7.6" ≠ "scikit-learn==1.3.0") ∧
    (resolve emptyStore ["xgboost==1.7.6"] (some (.list ["scikit-learn==1.3.0"])) none
        = .ok (["scikit-learn==1.3.0"], none) ∧
      get_pip_requirements
          (persist "pip_requirements" ["scikit-learn==1.3.0"] none emptyStore)
          "pip_requirements" false
        = .ok ({"scikit-learn==1.3.0"}, none) ∧
      "xgboost==1.7.6" ∉ ({"scikit-learn==1.3.0"} : Finset String)) :=
  ⟨⟨by decide, by decide, by decide⟩,
    c1_explicit_override_exact emptyStore ["xgboost==1.7.6"] emptyStore
      "xgboost==1.7.6" "scikit-learn==1.3.0"
      (by decide) (by decide) (by decide)⟩

/-- C4: in the default scenario (`log_model` with neither
`pip_requirements` nor `extra_pip_requirements`), the resolver keeps
the framework-inferred defaults, and the persisted requirements
manifest contains the framework version pin. -/
theorem c4_default_contains_framework_pin (fs : FS) (defaults : List String) (st : Store)
    (xgb_req : String)
    (hplain : ∀ e ∈ defaults, parseDirective e = none)
    (hclean : ∀ e ∈ defaults, '\n' ∉ e.toList)
    (hmem : xgb_req ∈ defaults) :
    resolve fs defaults none none = .ok (defaults, none) ∧
    get_pip_requirements (persist "default" defaults none st) "default" false
      = .ok (defaults.toFinset, none) ∧
    xgb_req ∈ defaults.toFinset := by
  refine ⟨resolve_default fs defaults hplain, ?_, List.mem_toFinset.mpr hmem⟩
  rw [get_persist_false, splitlines_joinLines defaults hclean]

/-- C4 witness at concrete requirement strings. -/
theorem c4_witness :
    ((∀ e ∈ ["mlflow==2.5.0", "xgboost==1.7.6"], parseDirective e = none) ∧
      (∀ e ∈ ["mlflow==2.5.0", "xgboost==1.7.6"], '\n' ∉ e.toList) ∧
      "xgboost==1.7.6" ∈ ["mlflow==2.5.0", "xgboost==1.7.6"]) ∧
    (resolve emptyStore ["mlflow==2.5.0", "xgboost==1.7.6"] none none
        = .ok (["mlflow==2.5.0", "xgboost==1.7.6"], none) ∧
      get_pip_requirements
          (persist "default" ["mlflow==2.5.0", "xgboost==1.7.6"] none emptyStore)
          "default" false
        = .ok ((["mlflow==2.5.0", "xgboost==1.7.6"] : List String).toFinset, none) ∧
      "xgboost==1.7.6" ∈ (["mlflow==2.5.0", "xgboost==1.7.6"] : List String).toFinset) :=
  ⟨⟨by decide, by decide, by decide⟩,
    c4_default_contains_framework_pin emptyStore ["mlflow==2.5.0", "xgboost==1.7.6"]
      emptyStore "xgboost==1.7.6" (by decide) (by decide) (by decide)⟩

/-- C3: in the extra-requirements scenario (`log_model` with
`extra_pip_requirements` the list holding only `sklearn_req`), the
resolver appends the extra entries to the inferred defaults, and the
persisted requirements manifest is a superset of the set holding the
framework pin and the extra entry. -/
theorem c3_extra_superset (fs : FS) (defaults : List String) (st : Store)
    (xgb_req sklearn_req : String)
    (hplain : ∀ e ∈ defaults, parseDirective e = none)
    (hclean : ∀ e ∈ defaults, '\n' ∉ e.toList)
    (hs1 : parseDirective sklearn_req = none)
    (hs2 : '\n' ∉ sklearn_req.toList)
    (hmem : xgb_req ∈ defaults) :
    resolve fs defaults none (some [sklearn_req]) = .ok (defaults ++ [sklearn_req], none) ∧
    get_pip_requirements
        (persist "extra_pip_requirements" (defaults ++ [sklearn_req]) none st)
        "extra_pip_requirements" false
      = .ok ((defaults ++ [sklearn_req]).toFinset, none) ∧
    ({xgb_req, sklearn_req} : Finset String) ⊆ (defaults ++ [sklearn_req]).toFinset := by
  refine ⟨resolve_extra fs defaults [sklearn_req] ?_, ?_, ?_⟩
  · intro e he
    rcases List.mem_append.mp he with h | h
    · exact hplain e h
    · simp at h
      rw [h]
      exact hs1
  · rw [get_persist_false, splitlines_joinLines (defaults ++ [sklearn_req]) ?_]
    intro l hl
    rcases List.mem_append.mp hl with h | h
    · exact hclean l h
    · simp at h
      rw [h]
      exact hs2
  · intro x hx
    rcases Finset.mem_insert.mp hx with h | h
    · rw [h]
      simp [hmem]
    · simp at h
      rw [h]
      simp

/-- C3 witness at concrete requirement strings. -/
theorem c3_witness :
    ((∀ e ∈ ["xgboost==1.7.6"], parseDirective e = none) ∧
      (∀ e ∈ ["xgboost==1.7.6"], '\n' ∉ e.toList) ∧
      parseDirective "scikit-learn==1.3.0" = none ∧
      '\n' ∉ "scikit-learn==1.3.0".toList ∧
      "xgboost==1.7.6" ∈ ["xgboost==1.7.6"]) ∧
    (resolve emptyStore ["xgboost==1.7.6"] none (some ["scikit-learn==1.3.0"])
        = .ok (["xgboost==1.7.6"] ++ ["scikit-learn==1.3.0"], none) ∧
      get_pip_requirements
          (persist "extra_pip_requirements" (["xgboost==1.7.6"] ++ ["scikit-learn==1.3.0"])
            none emptyStore)
          "extra_pip_requirements" false
        = .ok ((["xgboost==1.7.6"] ++ ["scikit-learn==1.3.0"]).toFinset, none) ∧
      ({"xgboost==1.7.6", "scikit-learn==1.3.0"} : Finset String)
        ⊆ (["xgboost==1.7.6"] ++ ["scikit-learn==1.3.0"]).toFinset) :=
  ⟨⟨by decide, by decide, by decide, by decide, by decide⟩,
    c3_extra_superset emptyStore ["xgboost==1.7.6"] emptyStore
      "xgboost==1.7.6" "scikit-learn==1.3.0"
      (by decide) (by decide) (by decide) (by decide) (by decide)⟩

/-- C6: in the requirements-file-path scenario (`log_model` with
`pip_requirements` a path string naming a file whose content is
`sklearn_req`), the path is read as a requirements file and the
persisted requirements manifest contains `sklearn_req`. -/
theorem c6_requirements_file_path (fs : FS) (defaults : List String) (st : Store)
    (tmp sklearn_req : String)
    (hfs : fs tmp = some sklearn_req)
    (h1 : parseDirective sklearn_req = none)
    (h2 : sklearn_req ≠ "")
    (h3 : '\n' ∉ sklearn_req.toList) :
    resolve fs defaults (some (.path tmp)) none = .ok ([sklearn_req], none) ∧
    get_pip_requirements (persist "requirements_file_path" [sklearn_req] none st)
        "requirements_file_path" false = .ok ({sklearn_req}, none) ∧
    sklearn_req ∈ ({sklearn_req} : Finset String) := by
  refine ⟨resolve_path fs defaults tmp sklearn_req hfs h1 h2 h3, ?_, by simp⟩
  rw [get_persist_false, splitlines_joinLines [sklearn_req] (by simpa using h3)]
  simp

/-- C6 witness at concrete requirement strings and a concrete file
system. -/
theorem c6_witness :
    (sampleFS "/tmp/a.requirements.txt" "scikit-learn==1.3.0" "/tmp/a.requirements.txt"
        = some "scikit-learn==1.3.0" ∧
      parseDirective "scikit-learn==1.3.0" = none ∧
      "scikit-learn==1.3.0" ≠ "" ∧
      '\n' ∉ "scikit-learn==1.3.0".toList) ∧
    (resolve (sampleFS "/tmp/a.requirements.txt" "scikit-learn==1.3.0") []
        (some (.path "/tmp/a.requirements.txt")) none
        = .ok (["scikit-learn==1.3.0"], none) ∧
      get_pip_requirements
          (persist "requirements_file_path" ["scikit-learn==1.3.0"] none emptyStore)
          "requirements_file_path" false
        = .ok ({"scikit-learn==1.3.0"}, none) ∧
      "scikit-learn==1.3.0" ∈ ({"scikit-learn==1.3.0"} : Finset String)) :=
  ⟨⟨by simp [sampleFS], by decide, by decide, by decide⟩,
    c6_requirements_file_path (sampleFS "/tmp/a.requirements.txt" "scikit-learn==1.3.0")
      [] emptyStore "/tmp/a.requirements.txt" "scikit-learn==1.3.0"
      (by simp [sampleFS]) (by decide) (by decide) (by decide)⟩

/-- C5: in the requirements-list-with-directive scenario (`log_model`
with `pip_requirements` the list of `xgb_req` and a `-r` directive
naming a file whose content is `sklearn_req`), the directive is
expanded in place and the persisted requirements manifest is a
superset of the set holding `xgb_req` and `sklearn_req`. -/
theorem c5_r_directive_expanded (fs : FS) (defaults : List String) (st : Store)
    (tmp xgb_req sklearn_req : String)
    (hfs : fs tmp = some sklearn_req)
    (hx1 : parseDirective xgb_req = none)
    (hx2 : '\n' ∉ xgb_req.toList)
    (hs2 : sklearn_req ≠ "")
    (hs3 : '\n' ∉ sklearn_req.toList) :
    resolve fs defaults (some (.list [xgb_req, "-r " ++ tmp])) none
      = .ok ([xgb_req, sklearn_req], none) ∧
    get_pip_requirements (persist "requirements_file_list" [xgb_req, sklearn_req] none st)
        "requirements_file_list" false
      = .ok (([xgb_req, sklearn_req] : List String).toFinset, none) ∧
    ({xgb_req, sklearn_req} : Finset String) ⊆ ([xgb_req, sklearn_req] : List String).toFinset := by
  refine ⟨resolve_rlist fs defaults tmp xgb_req sklearn_req hfs hx1 hs2 hs3, ?_, by
    intro x hx
    simpa using hx⟩
  rw [get_persist_false, splitlines_joinLines [xgb_req, sklearn_req] ?_]
  intro l hl
  rcases List.mem_cons.mp hl with h | h
  · rw [h]; exact hx2
  · simp at h
    rw [h]
    exact hs3

/-- C5 witness at concrete requirement strings and a concrete file
system. -/
theorem c5_witness :
    (sampleFS "/tmp/a.requirements.txt" "scikit-learn==1.3.0" "/tmp/a.requirements.txt"
        = some "scikit-learn==1.3.0" ∧
      parseDirective "xgboost==1.7.6" = none ∧
      '\n' ∉ "xgboost==1.7.6".toList ∧
      "scikit-learn==1.3.0" ≠ "" ∧
      '\n' ∉ "scikit-learn==1.3.0".toList) ∧
    (resolve (sampleFS "/tmp/a.requirements.txt" "scikit-learn==1.3.0") []
        (some (.list ["xgboost==1.7.6", "-r " ++ "/tmp/a.requirements.txt"])) none
        = .ok (["xgboost==1.7.6", "scikit-learn==1.3.0"], none) ∧
      get_pip_requirements
          (persist "requirements_file_list" ["xgboost==1.7.6", "scikit-learn==1.3.0"]
            none emptyStore)
          "requirements_file_list" false
        = .ok ((["xgboost==1.7.6", "scikit-learn==1.3.0"] : List String).toFinset, none) ∧
      ({"xgboost==1.7.6", "scikit-learn==1.3.0"} : Finset String)
        ⊆ (["xgboost==1.7.6", "scikit-learn==1.3.0"] : List String).toFinset) :=
  ⟨⟨by simp [sampleFS], by decide, by decide, by decide, by decide⟩,
    c5_r_directive_expanded (sampleFS "/tmp/a.requirements.txt" "scikit-learn==1.3.0")
      [] emptyStore "/tmp/a.requirements.txt" "xgboost==1.7.6" "scikit-learn==1.3.0"
      (by simp [sampleFS]) (by decide) (by decide) (by decide) (by decide)⟩

/-- C2: in the constraints-file scenario (`log_model` with
`pip_requirements` the list of `xgb_req` and a `-c` directive naming a
file whose content is `sklearn_req`), the raw directive is rewritten
to the literal line `-c constraints.txt` in the requirements manifest,
which is a superset of the set holding `xgb_req` and that literal, and
the persisted constraints manifest, parsed as a set of lines, equals
exactly the set holding `sklearn_req`. -/
theorem c2_constraints_directive (fs : FS) (defaults : List String) (st : Store)
    (tmp xgb_req sklearn_req : String)
    (hfs : fs tmp = some sklearn_req)
    (hx1 : parseDirective xgb_req = none)
    (hx2 : '\n' ∉ xgb_req.toList)
    (hs2 : sklearn_req ≠ "")
    (hs3 : '\n' ∉ sklearn_req.toList) :
    resolve fs defaults (some (.list [xgb_req, "-c " ++ tmp])) none
      = .ok ([xgb_req, "-c constraints.txt"], some [sklearn_req]) ∧
    get_pip_requirements
        (persist "constraints_file" [xgb_req, "-c constraints.txt"] (some [sklearn_req]) st)
        "constraints_file" true
      = .ok (([xgb_req, "-c constraints.txt"] : List String).toFinset, some {sklearn_req}) ∧
    ({xgb_req, "-c constraints.txt"} : Finset String)
      ⊆ ([xgb_req, "-c constraints.txt"] : List String).toFinset := by
  refine ⟨resolve_clist fs defaults tmp xgb_req sklearn_req hfs hx1 hs2 hs3, ?_, by
    intro x hx
    simpa using hx⟩
  rw [get_persist_true, splitlines_joinLines [xgb_req, "-c constraints.txt"] ?_,
    splitlines_joinLines [sklearn_req] (by simpa using hs3)]
  · simp
  · intro l hl
    rcases List.mem_cons.mp hl with h | h
    · rw [h]; exact hx2
    · simp at h
      rw [h]
      decide

/-- C2 witness at concrete requirement strings and a concrete file
system. -/
theorem c2_witness :
    (sampleFS "/tmp/a.constraints.txt" "scikit-learn==1.3.0" "/tmp/a.constraints.txt"
        = some "scikit-learn==1.3.0" ∧
      parseDirective "xgboost==1.7.6" = none ∧
      '\n' ∉ "xgboost==1.7.6".toList ∧
      "scikit-learn==1.3.0" ≠ "" ∧
      '\n' ∉ "scikit-learn==1.3.0".toList) ∧
    (resolve (sampleFS "/tmp/a.constraints.txt" "scikit-learn==1.3.0") []
        (some (.list ["xgboost==1.7.6", "-c " ++ "/tmp/a.constraints.txt"])) none
        = .ok (["xgboost==1.7.6", "-c constraints.txt"], some ["scikit-learn==1.3.0"]) ∧
      get_pip_requirements
          (persist "constraints_file" ["xgboost==1.7.6", "-c constraints.txt"]
            (some ["scikit-learn==1.3.0"]) emptyStore)
          "constraints_file" true
        = .ok ((["xgboost==1.7.6", "-c constraints.txt"] : List String).toFinset,
            some {"scikit-learn==1.3.0"}) ∧
      ({"xgboost==1.7.6", "-c constraints.txt"} : Finset String)
        ⊆ (["xgboost==1.7.6", "-c constraints.txt"] : List String).toFinset) :=
  ⟨⟨by simp [sampleFS], by decide, by decide, by decide, by decide⟩,
    c2_constraints_directive (sampleFS "/tmp/a.constraints.txt" "scikit-learn==1.3.0")
      [] emptyStore "/tmp/a.constraints.txt" "xgboost==1.7.6" "scikit-learn==1.3.0"
      (by simp [sampleFS]) (by decide) (by decide) (by decide) (by decide)⟩

/-- A store holding one requirements manifest whose text has an
interior empty line. -/
def sampleStore : Store :=
  fun p => if p = "default/requirements.txt" then some "a\n\nb" else none

/-- C7 counterexample: the verifier does not discard empty lines; on a
downloaded text with consecutive newlines the returned set contains
the empty line. -/
theorem c7_counterexample :
    splitlines "a\n\nb" = ["a", "", "b"] ∧
    get_pip_requirements sampleStore "default" false
      = .ok ((splitlines "a\n\nb").toFinset, none) ∧
    "" ∈ (splitlines "a\n\nb").toFinset := by
  refine ⟨by decide, ?_, by decide⟩
  rfl

/-- C7 amended: the verifier splits the downloaded text into the set
of its `str.splitlines` lines, which drops a trailing terminator but
keeps interior empty lines; the returned set is free of empty lines
whenever every line of the persisted manifest is non-empty. -/
theorem c7_amended_line_sets (st : Store) (ap text : String) (ls : List String)
    (hst : st (ap ++ "/requirements.txt") = some text)
    (htext : text = joinLines ls)
    (hls : ∀ l ∈ ls, l ≠ "" ∧ '\n' ∉ l.toList) :
    get_pip_requirements st ap false = .ok ((splitlines text).toFinset, none) ∧
    "" ∉ (splitlines text).toFinset := by
  constructor
  · simp [get_pip_requirements, download_artifacts, hst]
  · rw [htext, splitlines_joinLines ls (fun l hl => (hls l hl).2)]
    rw [List.mem_toFinset]
    intro hmem
    exact (hls "" hmem).1 rfl

/-- C7 amended witness at a concrete store. -/
theorem c7_amended_witness :
    (persist "x" ["a", "b"] none emptyStore ("x" ++ "/requirements.txt")
        = some (joinLines ["a", "b"]) ∧
      joinLines ["a", "b"] = joinLines ["a", "b"] ∧
      (∀ l ∈ ["a", "b"], l ≠ "" ∧ '\n' ∉ l.toList)) ∧
    (get_pip_requirements (persist "x" ["a", "b"] none emptyStore) "x" false
        = .ok ((splitlines (joinLines ["a", "b"])).toFinset, none) ∧
      "" ∉ (splitlines (joinLines ["a", "b"])).toFinset) :=
  ⟨⟨by decide, rfl, by decide⟩,
    c7_amended_line_sets (persist "x" ["a", "b"] none emptyStore) "x"
      (joinLines ["a", "b"]) ["a", "b"] (by decide) rfl (by decide)⟩

/-- C9: with `return_constraints` false the verifier reads only the
requirements manifest of the artifact path (two stores agreeing there
are indistinguishable to it, so the constraints manifest is never
touched), and the requirements set it returns is the one the
`return_constraints = true` call returns as first component. -/
theorem c9_frame_and_agreement :
    (∀ (st1 st2 : Store) (ap : String),
      st1 (ap ++ "/requirements.txt") = st2 (ap ++ "/requirements.txt") →
      get_pip_requirements st1 ap false = get_pip_requirements st2 ap false) ∧
    (∀ (st : Store) (ap : String) (r : Finset String) (oc : Option (Finset String)),
      get_pip_requirements st ap true = .ok (r, oc) →
      get_pip_requirements st ap false = .ok (r, none)) := by
  constructor
  · intro st1 st2 ap h
    have hd : download_artifacts st1 (ap ++ "/requirements.txt")
        = download_artifacts st2 (ap ++ "/requirements.txt") := by
      unfold download_artifacts
      rw [h]
    unfold get_pip_requirements
    rw [hd]
    cases download_artifacts st2 (ap ++ "/requirements.txt") with
    | error e => rfl
    | ok t => rfl
  · intro st ap r oc h
    unfold get_pip_requirements at h ⊢
    cases hd : download_artifacts st (ap ++ "/requirements.txt") with
    | error e =>
      rw [hd] at h
      simp at h
    | ok t =>
      rw [hd] at h
      cases hd2 : download_artifacts st (ap ++ "/constraints.txt") with
      | error e =>
        rw [hd2] at h
        simp at h
      | ok u =>
        rw [hd2] at h
        simp at h
        obtain ⟨h1, h2⟩ := h
        subst h1
        simp

/-- C9 witness at a concrete store holding both manifests. -/
theorem c9_witness :
    (get_pip_requirements (persist "x" ["a"] (some ["b"]) emptyStore) "x" true
        = .ok ({"a"}, some {"b"})) ∧
    get_pip_requirements (persist "x" ["a"] (some ["b"]) emptyStore) "x" false
      = .ok ({"a"}, none) := by
  have htrue : get_pip_requirements (persist "x" ["a"] (some ["b"]) emptyStore) "x" true
      = .ok ({"a"}, some {"b"}) := by
    rw [get_persist_true, splitlines_joinLines ["a"] (by decide),
      splitlines_joinLines ["b"] (by decide)]
    simp
  exact ⟨htrue, c9_frame_and_agreement.2 _ "x" {"a"} (some {"b"}) htrue⟩

/-- C10: the six artifact paths of the scenarios are pairwise
distinct, a logging call under one artifact path alters neither
manifest of a different artifact path, and reading the requirements
manifest right after its own scenario's persistence returns exactly
that scenario's serialised lines. -/
theorem c10_distinct_namespaces :
    artifactPaths.Nodup ∧
    (∀ (r : List String) (c : Option (List String)) (st : Store),
      ∀ p1 ∈ artifactPaths, ∀ p2 ∈ artifactPaths, p1 ≠ p2 →
        persist p2 r c st (p1 ++ "/requirements.txt") = st (p1 ++ "/requirements.txt") ∧
        persist p2 r c st (p1 ++ "/constraints.txt") = st (p1 ++ "/constraints.txt")) ∧
    (∀ (ap : String) (r : List String) (c : Option (List String)) (st : Store),
      get_pip_requirements (persist ap r c st) ap false
        = .ok ((splitlines (joinLines r)).toFinset, none)) := by
  refine ⟨by decide, ?_, fun ap r c st => get_persist_false ap r c st⟩
  intro r c st p1 hp1 p2 hp2 hne
  simp only [artifactPaths, List.mem_cons, List.not_mem_nil, or_false] at hp1 hp2
  rcases hp1 with h1 | h1 | h1 | h1 | h1 | h1 <;>
    rcases hp2 with h2 | h2 | h2 | h2 | h2 | h2 <;>
    subst h1 <;> subst h2 <;>
    first
      | exact absurd rfl hne
      | exact ⟨by simp only [persist]; rw [if_neg (by decide), if_neg (by decide)],
          by simp only [persist]; rw [if_neg (by decide), if_neg (by decide)]⟩

/-- C10 witness: logging under the second scenario's artifact path
leaves the first scenario's manifests untouched. -/
theorem c10_witness :
    ("default" ∈ artifactPaths ∧ "pip_requirements" ∈ artifactPaths ∧
      "default" ≠ "pip_requirements") ∧
    (persist "pip_requirements" ["a"] none emptyStore ("default" ++ "/requirements.txt")
        = emptyStore ("default" ++ "/requirements.txt") ∧
      persist "pip_requirements" ["a"] none emptyStore ("default" ++ "/constraints.txt")
        = emptyStore ("default" ++ "/constraints.txt")) :=
  ⟨⟨by decide, by decide, by decide⟩,
    c10_distinct_namespaces.2.1 ["a"] none emptyStore "default" (by decide)
      "pip_requirements" (by decide) (by decide)⟩

/-- An unreadable requirements file named by an explicit path is a
fatal I/O error of the resolver. -/
theorem resolve_path_missing (fs : FS) (defaults : List String) (tmp : String)
    (hfs : fs tmp = none) :
    resolve fs defaults (some (.path tmp)) none = .error (.io tmp) := by
  simp [resolve, read_lines, hfs]

/-- Sequencing after a successful step continues with its value. -/
theorem except_bind_ok {α β : Type} (v : α) (f : α → Except Err β) :
    Bind.bind (Except.ok v) f = f v := rfl

/-- Sequencing after a failed step propagates the error unchanged: no
step of the script can observe or recover from an earlier failure. -/
theorem except_bind_error {α β : Type} (er : Err) (f : α → Except Err β) :
    Bind.bind (Except.error er : Except Err α) f = Except.error er := rfl

/-- C8: the whole run is fail-fast.  Under well-formed requirement
strings and readable temp files, `main` succeeds exactly when every
scenario's manifest check holds; the one check that can fail (the
framework pin being among the inferred defaults) makes `main` raise
immediately with the offending actual set as diagnostic; and an
unreadable temp file aborts the run with the I/O error propagated
unhandled. -/
theorem c8_fail_fast (fs : FS) (defaults : List String)
    (xgb_req sklearn_req tmp1 tmp2 : String)
    (hdp : ∀ e ∈ defaults, parseDirective e = none)
    (hdc : ∀ e ∈ defaults, '\n' ∉ e.toList)
    (hx1 : parseDirective xgb_req = none)
    (hx2 : '\n' ∉ xgb_req.toList)
    (hs1 : parseDirective sklearn_req = none)
    (hs2 : sklearn_req ≠ "")
    (hs3 : '\n' ∉ sklearn_req.toList)
    (hfs1 : fs tmp1 = some sklearn_req)
    (hfs2 : fs tmp2 = some sklearn_req) :
    (xgb_req ∈ defaults → main fs defaults xgb_req sklearn_req tmp1 tmp2 = .ok ()) ∧
    (xgb_req ∉ defaults →
      main fs defaults xgb_req sklearn_req tmp1 tmp2
        = .error (.assertFail defaults.toFinset)) ∧
    (∀ fs2 : FS, fs2 tmp1 = none → xgb_req ∈ defaults →
      main fs2 defaults xgb_req sklearn_req tmp1 tmp2 = .error (.io tmp1)) := by
  have hplain_s : ∀ e ∈ [sklearn_req], parseDirective e = none := by simp [hs1]
  have hplain_de : ∀ e ∈ defaults ++ [sklearn_req], parseDirective e = none := by
    intro e he
    rcases List.mem_append.mp he with h | h
    · exact hdp e h
    · simp at h
      rw [h]
      exact hs1
  have e1 : splitlines (joinLines defaults) = defaults := splitlines_joinLines defaults hdc
  have e2 : splitlines (joinLines [sklearn_req]) = [sklearn_req] :=
    splitlines_joinLines _ (by simpa using hs3)
  have e3 : splitlines (joinLines (defaults ++ [sklearn_req])) = defaults ++ [sklearn_req] := by
    apply splitlines_joinLines
    intro l hl
    rcases List.mem_append.mp hl with h | h
    · exact hdc l h
    · simp at h
      rw [h]
      exact hs3
  have e4 : splitlines (joinLines [xgb_req, sklearn_req]) = [xgb_req, sklearn_req] := by
    apply splitlines_joinLines
    intro l hl
    rcases List.mem_cons.mp hl with h | h
    · rw [h]; exact hx2
    · simp at h
      rw [h]
      exact hs3
  have e5 : splitlines (joinLines [xgb_req, "-c constraints.txt"])
      = [xgb_req, "-c constraints.txt"] := by
    apply splitlines_joinLines
    intro l hl
    rcases List.mem_cons.mp hl with h | h
    · rw [h]; exact hx2
    · simp at h
      rw [h]
      decide
  refine ⟨?_, ?_, ?_⟩
  · intro hmem
    have hm1 : xgb_req ∈ defaults.toFinset := List.mem_toFinset.mpr hmem
    simp [main, resolve_default fs defaults hdp,
      resolve_list_plain fs defaults [sklearn_req] hplain_s,
      resolve_extra fs defaults [sklearn_req] hplain_de,
      resolve_path fs defaults tmp1 sklearn_req hfs1 hs1 hs2 hs3,
      resolve_rlist fs defaults tmp1 xgb_req sklearn_req hfs1 hx1 hs2 hs3,
      resolve_clist fs defaults tmp2 xgb_req sklearn_req hfs2 hx1 hs2 hs3,
      get_persist_false, get_persist_true, e1, e2, e3, e4, e5,
      assertCheck, hm1, hmem, Finset.insert_subset_iff,
      except_bind_ok, except_bind_error]
  · intro hmem
    have hm1 : xgb_req ∉ defaults.toFinset := fun hc => hmem (List.mem_toFinset.mp hc)
    simp [main, resolve_default fs defaults hdp, get_persist_false, e1,
      assertCheck, hm1, hmem, except_bind_ok, except_bind_error]
  · intro fs2 hnone hmem
    have hm1 : xgb_req ∈ defaults.toFinset := List.mem_toFinset.mpr hmem
    simp [main, resolve_default fs2 defaults hdp,
      resolve_list_plain fs2 defaults [sklearn_req] hplain_s,
      resolve_extra fs2 defaults [sklearn_req] hplain_de,
      resolve_path_missing fs2 defaults tmp1 hnone,
      get_persist_false, e1, e2, e3,
      assertCheck, hm1, hmem, Finset.insert_subset_iff,
      except_bind_ok, except_bind_error]

/-- C8 witness at concrete requirement strings and a concrete file
system: the well-formed run succeeds end to end. -/
theorem c8_witness :
    ((∀ e ∈ ["xgboost==1.7.6"], parseDirective e = none) ∧
      (∀ e ∈ ["xgboost==1.7.6"], '\n' ∉ e.toList) ∧
      parseDirective "xgboost==1.7.6" = none ∧
      '\n' ∉ "xgboost==1.7.6".toList ∧
      parseDirective "scikit-learn==1.3.0" = none ∧
      "scikit-learn==1.3.0" ≠ "" ∧
      '\n' ∉ "scikit-learn==1.3.0".toList ∧
      sampleFS "/tmp/t.txt" "scikit-learn==1.3.0" "/tmp/t.txt"
        = some "scikit-learn==1.3.0" ∧
      "xgboost==1.7.6" ∈ ["xgboost==1.7.6"]) ∧
    main (sampleFS "/tmp/t.txt" "scikit-learn==1.3.0") ["xgboost==1.7.6"]
      "xgboost==1.7.6" "scikit-learn==1.3.0" "/tmp/t.txt" "/tmp/t.txt" = .ok () :=
  ⟨⟨by decide, by decide, by decide, by decide, by decide, by decide, by decide,
      by simp [sampleFS], by decide⟩,
    (c8_fail_fast (sampleFS "/tmp/t.txt" "scikit-learn==1.3.0") ["xgboost==1.7.6"]
      "xgboost==1.7.6" "scikit-learn==1.3.0" "/tmp/t.txt" "/tmp/t.txt"
      (by decide) (by decide) (by decide) (by decide) (by decide) (by decide) (by decide)
      (by simp [sampleFS]) (by simp [sampleFS])).1 (by decide)⟩

end Seving
